import Mathlib

/-!
Verification of `scripts/create_app_icon.py` (carbon-tracker repository).

The script is a straight-line procedure: it builds a list of drawing
operations against a 512×512 RGBA canvas (50 nested rounded rectangles
approximating a gradient, one leaf polygon, one vein line, three detail
circles), then writes the rasterized canvas to one file and prints status
lines.  We embed the script shallowly: every numeric computation of the
source is reproduced over exact rationals (Python float arithmetic on the
constants involved was checked to agree with exact rational arithmetic at
every step, so the rational model is faithful), Python `int()` is modelled
as truncation toward zero, and the sequence of drawing calls becomes an
explicit list of operations.  Rasterization is external library behavior;
where a claim needs it (corner transparency) we use the spec glossary's
geometric definition of a rounded rectangle, and a sound over-approximation
(bounding regions) for the remaining fills, which suffices because the
claim is about points that no operation touches.
-/

namespace CarbonIcon

/-- Python `int()` applied to an exact real value: truncation toward zero. -/
def pyInt (q : ℚ) : ℤ := if 0 ≤ q then ⌊q⌋ else ⌈q⌉

/-- Canvas side length: `size = 512` in the source. -/
def size : ℕ := 512

/-- Gradient start color `color1 = (102, 187, 106)` (Colors.green.shade400). -/
def color1 : ℤ × ℤ × ℤ := (102, 187, 106)

/-- Gradient end color `color2 = (46, 125, 50)` (Colors.green.shade700). -/
def color2 : ℤ × ℤ × ℤ := (46, 125, 50)

/-- `corner_radius = int(size * 0.2)` from the source. -/
def corner_radius : ℤ := pyInt ((size : ℚ) * (2 / 10))

/-- `steps = 50` from the source. -/
def steps : ℕ := 50

/-- The interpolation parameter `i / (steps - 1)` computed in the loop body. -/
def stepFrac (i : ℕ) : ℚ := (i : ℚ) / ((steps : ℚ) - 1)

/-- One interpolated channel: `int(c1 * (1 - ratio) + c2 * ratio)` from the source. -/
def chan (a b : ℤ) (i : ℕ) : ℤ :=
  pyInt ((a : ℚ) * (1 - stepFrac i) + (b : ℚ) * stepFrac i)

/-- An RGBA color with integer channels. -/
@[ext]
structure Color where
  r : ℤ
  g : ℤ
  b : ℤ
  a : ℤ
deriving DecidableEq

/-- The fill color `(r, g, b, 255)` computed at gradient step `i`. -/
def gradColor (i : ℕ) : Color :=
  ⟨chan color1.1 color2.1 i, chan color1.2.1 color2.2.1 i,
   chan color1.2.2 color2.2.2 i, 255⟩

/-- The drawing operations issued by the script, in source order.  Coordinates
are exact rationals; fills are RGBA colors. -/
inductive DrawOp where
  | rrect (x0 y0 x1 y1 : ℚ) (radius : ℤ) (fill : Color)
  | polygon (pts : List (ℚ × ℚ)) (fill : Color)
  | line (p0 p1 : ℚ × ℚ) (fill : Color) (width : ℕ)
  | ellipse (x0 y0 x1 y1 : ℚ) (fill : Color)
deriving DecidableEq

/-- `offset = int(i * 2)` from the loop body. -/
def offset (i : ℕ) : ℕ := 2 * i

/-- The 50 rounded-rectangle calls of the gradient loop, in order. -/
def gradientOps : List DrawOp :=
  (List.range steps).map fun i =>
    .rrect (offset i) (offset i) ((size : ℚ) - offset i) ((size : ℚ) - offset i)
      corner_radius (gradColor i)

/-- `center_x = size // 2` (Python floor division). -/
def center_x : ℚ := ((size / 2 : ℕ) : ℚ)

/-- `center_y = size // 2` (Python floor division). -/
def center_y : ℚ := ((size / 2 : ℕ) : ℚ)

/-- `leaf_size = int(size * 0.35)` from the source. -/
def leaf_size : ℤ := pyInt ((size : ℚ) * (35 / 100))

/-- The 8 vertices of the leaf polygon, in source order. -/
def leaf_points : List (ℚ × ℚ) :=
  [ (center_x, center_y - (leaf_size : ℚ)),
    (center_x + (leaf_size : ℚ) * (6 / 10), center_y - (leaf_size : ℚ) * (3 / 10)),
    (center_x + (leaf_size : ℚ) * (8 / 10), center_y + (leaf_size : ℚ) * (2 / 10)),
    (center_x + (leaf_size : ℚ) * (3 / 10), center_y + (leaf_size : ℚ) * (6 / 10)),
    (center_x, center_y + (leaf_size : ℚ) * (4 / 10)),
    (center_x - (leaf_size : ℚ) * (3 / 10), center_y + (leaf_size : ℚ) * (6 / 10)),
    (center_x - (leaf_size : ℚ) * (8 / 10), center_y + (leaf_size : ℚ) * (2 / 10)),
    (center_x - (leaf_size : ℚ) * (6 / 10), center_y - (leaf_size : ℚ) * (3 / 10)) ]

/-- First endpoint of the vein line. -/
def vein_p0 : ℚ × ℚ := (center_x, center_y - (leaf_size : ℚ) * (8 / 10))

/-- Second endpoint of the vein line. -/
def vein_p1 : ℚ × ℚ := (center_x, center_y + (leaf_size : ℚ) * (3 / 10))

/-- Centers of the three 4px-radius detail circles, in source order. -/
def detail_points : List (ℚ × ℚ) :=
  [ (center_x - (leaf_size : ℚ) * (4 / 10), center_y - (leaf_size : ℚ) * (1 / 10)),
    (center_x + (leaf_size : ℚ) * (4 / 10), center_y + (leaf_size : ℚ) * (1 / 10)),
    (center_x - (leaf_size : ℚ) * (1 / 10), center_y + (leaf_size : ℚ) * (4 / 10)) ]

/-- The full sequence of drawing operations performed by
`create_carbon_tracker_icon`, in source order: the 50 gradient rectangles,
then the white leaf polygon, the vein line, and the three detail circles. -/
def create_carbon_tracker_icon : List DrawOp :=
  gradientOps ++
    (DrawOp.polygon leaf_points ⟨255, 255, 255, 255⟩ ::
     DrawOp.line vein_p0 vein_p1 ⟨255, 255, 255, 200⟩ 6 ::
     detail_points.map (fun p =>
       DrawOp.ellipse (p.1 - 4) (p.2 - 4) (p.1 + 4) (p.2 + 4) ⟨255, 255, 255, 180⟩))

/-- The script consults no external state: we model a run as a function of an
arbitrary environment `s`, which the body (faithfully to the source, which
reads no input, environment variable, file or random source) never reads. -/
def renderIn {σ : Type} (_s : σ) : List DrawOp := create_carbon_tracker_icon

/-- Observable side effects of the module top level, in order: one file write
of the rendered icon, then two `print` calls. -/
inductive Effect where
  | fileWrite (path : String) (content : List DrawOp)
  | consolePrint (msg : String)
deriving DecidableEq

/-- The effect trace of running the module top level. -/
def moduleEffects : List Effect :=
  [ .fileWrite "assets/icons/app_icon.png" create_carbon_tracker_icon,
    .consolePrint "✅ Generated app icon: assets/icons/app_icon.png",
    .consolePrint "📏 Icon size: 512x512px" ]

/-- Whether an effect is a file write. -/
def isFileWrite : Effect → Bool
  | .fileWrite _ _ => true
  | .consolePrint _ => false

/-- Whether an effect is console output. -/
def isConsolePrint : Effect → Bool
  | .fileWrite _ _ => false
  | .consolePrint _ => true

/-- Whether a drawing op is a rounded rectangle. -/
def isRRect : DrawOp → Bool
  | .rrect _ _ _ _ _ _ => true
  | _ => false

/-- Whether a drawing op is a polygon. -/
def isPolygon : DrawOp → Bool
  | .polygon _ _ => true
  | _ => false

/-- Membership in a rounded rectangle, following the spec glossary: the
rectangle `[x0, y0] × [x1, y1]` with each corner replaced by a circular arc
of radius `r` (a point in a corner square must lie inside that corner's
disk). -/
def rrectCovers (x0 y0 x1 y1 r x y : ℚ) : Bool :=
  decide (x0 ≤ x) && decide (x ≤ x1) && decide (y0 ≤ y) && decide (y ≤ y1) &&
  (!(decide (x < x0 + r) && decide (y < y0 + r)) ||
     decide ((x - (x0 + r)) ^ 2 + (y - (y0 + r)) ^ 2 ≤ r ^ 2)) &&
  (!(decide (x1 - r < x) && decide (y < y0 + r)) ||
     decide ((x - (x1 - r)) ^ 2 + (y - (y0 + r)) ^ 2 ≤ r ^ 2)) &&
  (!(decide (x < x0 + r) && decide (y1 - r < y)) ||
     decide ((x - (x0 + r)) ^ 2 + (y - (y1 - r)) ^ 2 ≤ r ^ 2)) &&
  (!(decide (x1 - r < x) && decide (y1 - r < y)) ||
     decide ((x - (x1 - r)) ^ 2 + (y - (y1 - r)) ^ 2 ≤ r ^ 2))

/-- Membership in an axis-aligned box. -/
def bboxCovers (x0 y0 x1 y1 x y : ℚ) : Bool :=
  decide (x0 ≤ x) && decide (x ≤ x1) && decide (y0 ≤ y) && decide (y ≤ y1)

/-- Membership in the bounding box of a point list (a point is inside iff
some vertex is on each side of it, per coordinate). -/
def ptsBBoxCovers (pts : List (ℚ × ℚ)) (x y : ℚ) : Bool :=
  pts.any (fun p => decide (p.1 ≤ x)) && pts.any (fun p => decide (x ≤ p.1)) &&
  pts.any (fun p => decide (p.2 ≤ y)) && pts.any (fun p => decide (y ≤ p.2))

/-- The set of points a drawing op can color.  For the rounded rectangle this
is the exact glossary geometry; for polygon, line and ellipse it is a sound
over-approximation (the vertex bounding box, inflated by the stroke width
for the line; the given box for the ellipse), which contains every point the
library fill can touch, so a point outside it is provably left unpainted. -/
def opCovers : DrawOp → ℚ → ℚ → Bool
  | .rrect x0 y0 x1 y1 r _, x, y => rrectCovers x0 y0 x1 y1 (r : ℚ) x y
  | .polygon pts _, x, y => ptsBBoxCovers pts x y
  | .line p0 p1 _ w, x, y =>
      bboxCovers (min p0.1 p1.1 - w) (min p0.2 p1.2 - w)
        (max p0.1 p1.1 + w) (max p0.2 p1.2 + w) x y
  | .ellipse x0 y0 x1 y1 _, x, y => bboxCovers x0 y0 x1 y1 x y

/-- The alpha component of an op's fill color. -/
def opAlpha : DrawOp → ℤ
  | .rrect _ _ _ _ _ c => c.a
  | .polygon _ c => c.a
  | .line _ _ c _ => c.a
  | .ellipse _ _ _ _ c => c.a

/-- Alpha value at a point after replaying the ops over the initially
transparent canvas: the alpha of the last op covering the point, and 0
(fully transparent, as the canvas is initialized) when no op covers it. -/
def alphaAt (ops : List DrawOp) (x y : ℚ) : ℤ :=
  ops.foldl (fun a op => if opCovers op x y then opAlpha op else a) 0

/-- Modelled from the spec: the spec states the channel formula
`channel = round(start_channel * (1 - ratio) + end_channel * ratio)` with
rounding to nearest; this definition follows those words, to be compared
with `chan`, which embeds the source's `int(...)` truncation. -/
def specRoundChan (a b : ℤ) (i : ℕ) : ℤ :=
  round ((a : ℚ) * (1 - stepFrac i) + (b : ℚ) * stepFrac i)

/-- Whether a point lies strictly inside the 512×512 canvas. -/
def ptStrictlyInside (p : ℚ × ℚ) : Bool :=
  decide (0 < p.1) && decide (p.1 < 512) && decide (0 < p.2) && decide (p.2 < 512)

/-- Bounds check for one gradient rectangle: inset `x0` satisfies
`0 ≤ x0 ≤ 98`, the rectangle is the symmetric inset `[x0, x0, 512-x0, 512-x0]`,
and it is non-degenerate (`x0 < 512 - x0`). -/
def rrectBoundsOk : DrawOp → Bool
  | .rrect x0 y0 x1 y1 _ _ =>
      decide (0 ≤ x0) && decide (x0 ≤ 98) && decide (y0 = x0) &&
      decide (x1 = 512 - x0) && decide (y1 = x1) && decide (x0 < x1)
  | _ => false

/-- Python `int()` agrees with the floor on nonnegative values. -/
lemma pyInt_of_nonneg (q : ℚ) (h : 0 ≤ q) : pyInt q = ⌊q⌋ := if_pos h

/-- The canvas size, cast to ℚ. -/
lemma size_cast : ((size : ℕ) : ℚ) = 512 := by norm_num [size]

/-- The corner radius evaluates to 102 (truncation of 512·0.2 = 102.4). -/
lemma corner_radius_eq : corner_radius = 102 := by
  rw [corner_radius, pyInt_of_nonneg _ (by norm_num [size])]
  norm_num [size]

/-- The leaf scalar evaluates to 179 (truncation of 512·0.35 = 179.2). -/
lemma leaf_size_eq : leaf_size = 179 := by
  rw [leaf_size, pyInt_of_nonneg _ (by norm_num [size])]
  norm_num [size]

/-- The horizontal center evaluates to 256. -/
lemma center_x_eq : center_x = 256 := by norm_num [center_x, size]

/-- The vertical center evaluates to 256. -/
lemma center_y_eq : center_y = 256 := by norm_num [center_y, size]

/-- The interpolation parameter is i/49. -/
lemma stepFrac_eq (i : ℕ) : stepFrac i = (i : ℚ) / 49 := by
  norm_num [stepFrac, steps]

/-- Closed form of one interpolated channel: for nonnegative endpoint values
and i ≤ 49, the float truncation is the integer quotient of the exact
rational interpolation. -/
lemma chan_eq (a b : ℤ) (i : ℕ) (ha : 0 ≤ a) (hb : 0 ≤ b) (hi : i ≤ 49) :
    chan a b i = (a * (49 - (i : ℤ)) + b * (i : ℤ)) / 49 := by
  have hn : (0 : ℤ) ≤ a * (49 - (i : ℤ)) + b * (i : ℤ) := by
    have h1 : (0 : ℤ) ≤ 49 - (i : ℤ) := by omega
    have h2 : (0 : ℤ) ≤ (i : ℤ) := by omega
    exact add_nonneg (mul_nonneg ha h1) (mul_nonneg hb h2)
  have hx : (a : ℚ) * (1 - stepFrac i) + (b : ℚ) * stepFrac i
      = ((a * (49 - (i : ℤ)) + b * (i : ℤ) : ℤ) : ℚ) / ((49 : ℕ) : ℚ) := by
    rw [stepFrac_eq]
    push_cast
    field_simp
  have hq : (0 : ℚ) ≤ ((a * (49 - (i : ℤ)) + b * (i : ℤ) : ℤ) : ℚ) / ((49 : ℕ) : ℚ) :=
    div_nonneg (by exact_mod_cast hn) (by norm_num)
  rw [chan, hx, pyInt_of_nonneg _ hq, Rat.floor_intCast_div_natCast]
  norm_num

/-- The red channel at step i, in closed integer form. -/
lemma gradColor_r (i : ℕ) (hi : i ≤ 49) :
    (gradColor i).r = (102 * (49 - (i : ℤ)) + 46 * (i : ℤ)) / 49 :=
  chan_eq 102 46 i (by norm_num) (by norm_num) hi

/-- The green channel at step i, in closed integer form. -/
lemma gradColor_g (i : ℕ) (hi : i ≤ 49) :
    (gradColor i).g = (187 * (49 - (i : ℤ)) + 125 * (i : ℤ)) / 49 :=
  chan_eq 187 125 i (by norm_num) (by norm_num) hi

/-- The blue channel at step i, in closed integer form. -/
lemma gradColor_b (i : ℕ) (hi : i ≤ 49) :
    (gradColor i).b = (106 * (49 - (i : ℤ)) + 50 * (i : ℤ)) / 49 :=
  chan_eq 106 50 i (by norm_num) (by norm_num) hi

/-- The alpha channel is the constant 255. -/
lemma gradColor_a (i : ℕ) : (gradColor i).a = 255 := rfl

/-- The gradient loop issues exactly 50 operations. -/
lemma gradientOps_length : gradientOps.length = 50 := by
  simp [gradientOps, steps]

/-- Replaying ops that all miss the point leaves the accumulator unchanged. -/
lemma paint_foldl_skip (x y : ℚ) (c : ℤ) (ops : List DrawOp)
    (h : ∀ op ∈ ops, opCovers op x y = false) :
    List.foldl (fun a op => if opCovers op x y then opAlpha op else a) c ops = c := by
  induction ops generalizing c with
  | nil => rfl
  | cons o t ih =>
    have ho := h o (List.mem_cons_self o t)
    have ht : ∀ op ∈ t, opCovers op x y = false :=
      fun op hop => h op (List.mem_cons_of_mem o hop)
    simp [List.foldl_cons, ho, ih c ht]

/-- C1: the claim fails on the code.  At gradient step i = 1 the exact
interpolated red value is 4942/49 ≈ 100.857; the source's `int(...)`
truncates it to 100, while rounding to nearest — as the claim states —
gives 101. -/
theorem C1_counterexample :
    (gradColor 1).r = 100 ∧ specRoundChan 102 46 1 = 101 ∧
    (gradColor 1).r ≠ specRoundChan 102 46 1 := by
  have hr : (gradColor 1).r = 100 := by
    rw [gradColor_r 1 (by norm_num)]
    decide
  have hs : specRoundChan 102 46 1 = 101 := by
    rw [specRoundChan, round_eq, stepFrac_eq]
    norm_num
  exact ⟨hr, hs, by rw [hr, hs]; norm_num⟩

/-- C1 (amended): for every gradient step i < 50, each channel of the fill
is the truncation (floor, the values being nonnegative) of
start_channel*(1-ratio) + end_channel*ratio with ratio = i/49 —
equivalently the integer quotient (start*(49-i) + end*i) / 49 — not the
rounding to nearest, and alpha is fixed at 255. -/
theorem C1_channels_truncated :
    ∀ i, i < 50 →
      (gradColor i).r = (102 * (49 - (i : ℤ)) + 46 * (i : ℤ)) / 49 ∧
      (gradColor i).g = (187 * (49 - (i : ℤ)) + 125 * (i : ℤ)) / 49 ∧
      (gradColor i).b = (106 * (49 - (i : ℤ)) + 50 * (i : ℤ)) / 49 ∧
      (gradColor i).a = 255 := by
  intro i hi
  exact ⟨gradColor_r i (by omega), gradColor_g i (by omega),
    gradColor_b i (by omega), gradColor_a i⟩

/-- C1 witness: the amended statement instantiated at step 1. -/
theorem C1_channels_truncated_witness :
    1 < 50 ∧
      ((gradColor 1).r = (102 * (49 - ((1 : ℕ) : ℤ)) + 46 * ((1 : ℕ) : ℤ)) / 49 ∧
       (gradColor 1).g = (187 * (49 - ((1 : ℕ) : ℤ)) + 125 * ((1 : ℕ) : ℤ)) / 49 ∧
       (gradColor 1).b = (106 * (49 - ((1 : ℕ) : ℤ)) + 50 * ((1 : ℕ) : ℤ)) / 49 ∧
       (gradColor 1).a = 255) :=
  ⟨by decide, C1_channels_truncated 1 (by decide)⟩

/-- C2: the gradient loop performs exactly 50 iterations (the op list it
produces has length 50, with no dependence on any external state in the
embedding), and the i-th iteration draws one filled rounded rectangle from
(2i, 2i) to (512-2i, 512-2i) with the constant corner radius 102. -/
theorem C2_fifty_rects :
    gradientOps.length = 50 ∧
    ∀ i, i < 50 →
      gradientOps[i]? =
        some (.rrect (2 * (i : ℚ)) (2 * (i : ℚ)) (512 - 2 * (i : ℚ))
          (512 - 2 * (i : ℚ)) 102 (gradColor i)) := by
  refine ⟨gradientOps_length, ?_⟩
  intro i hi
  have hi' : i < steps := by simpa [steps] using hi
  rw [gradientOps, List.getElem?_map, List.getElem?_range hi']
  simp only [Option.map_some', Option.some.injEq, DrawOp.rrect.injEq]
  refine ⟨?_, ?_, ?_, ?_, corner_radius_eq, trivial⟩ <;>
    · push_cast [offset, size]
      ring

/-- C2 witness: the per-iteration statement instantiated at i = 3. -/
theorem C2_fifty_rects_witness :
    3 < 50 ∧
      gradientOps[3]? =
        some (.rrect (2 * ((3 : ℕ) : ℚ)) (2 * ((3 : ℕ) : ℚ))
          (512 - 2 * ((3 : ℕ) : ℚ)) (512 - 2 * ((3 : ℕ) : ℚ)) 102 (gradColor 3)) :=
  ⟨by decide, C2_fifty_rects.2 3 (by decide)⟩

/-- C3: determinism.  The render routine reads nothing from its environment
(modelled by an arbitrary, never-read environment argument), so any two runs
produce the same operation sequence, and any fixed rasterizer therefore
yields identical pixel content for both — re-running is idempotent. -/
theorem C3_deterministic {σ τ : Type} (s : σ) (t : τ)
    (rasterize : List DrawOp → List ℤ) :
    renderIn s = renderIn t ∧ rasterize (renderIn s) = rasterize (renderIn t) :=
  ⟨rfl, rfl⟩

/-- C4: the claim fails on the code.  The module top level issues two
console prints (the completion line and the size line), not exactly one. -/
theorem C4_counterexample : ¬ moduleEffects.countP isConsolePrint = 1 := by decide

/-- C4 (amended): on a successful run the side effects are exactly one file
write and exactly two status prints, and nothing else (every effect in the
trace is one of these). -/
theorem C4_effects :
    moduleEffects.countP isFileWrite = 1 ∧
    moduleEffects.countP isConsolePrint = 2 ∧
    moduleEffects.length = 3 ∧
    moduleEffects.countP (fun e => isFileWrite e || isConsolePrint e) =
      moduleEffects.length := by decide

/-- C5: the claim fails on the code.  512*0.35 = 179.2, but the source sets
`leaf_size = int(size * 0.35)`, which truncates to the integer 179, so the
scalar actually used for the leaf points, vein and dots is 179, not 179.2. -/
theorem C5_counterexample :
    leaf_size = 179 ∧ (512 : ℚ) * (35 / 100) = 179.2 ∧
    (leaf_size : ℚ) ≠ 179.2 := by
  refine ⟨leaf_size_eq, by norm_num, ?_⟩
  rw [leaf_size_eq]
  norm_num

/-- C5 (amended): the leaf geometry is computed from the center point
(256, 256) and the scalar leaf_size = int(512*0.35) = 179, the truncation
of 179.2 (179 ≤ 179.2 < 180). -/
theorem C5_leaf_size :
    center_x = 256 ∧ center_y = 256 ∧ leaf_size = 179 ∧
    (leaf_size : ℚ) ≤ (512 : ℚ) * (35 / 100) ∧
    (512 : ℚ) * (35 / 100) < (leaf_size : ℚ) + 1 := by
  refine ⟨center_x_eq, center_y_eq, leaf_size_eq, ?_, ?_⟩ <;>
    rw [leaf_size_eq] <;> norm_num

/-- C6: the interpolation hits its endpoints exactly: the fill at step 0 is
the start color (102, 187, 106) with alpha 255 and the fill at step 49 is
the end color (46, 125, 50) with alpha 255; the two endpoint constants hold
exactly the stated values (and are immutable constants of the embedding). -/
theorem C6_endpoints :
    color1 = (102, 187, 106) ∧ color2 = (46, 125, 50) ∧
    gradColor 0 = ⟨color1.1, color1.2.1, color1.2.2, 255⟩ ∧
    gradColor 49 = ⟨color2.1, color2.2.1, color2.2.2, 255⟩ := by
  refine ⟨rfl, rfl, ?_, ?_⟩
  · ext
    · rw [gradColor_r 0 (by norm_num)]; decide
    · rw [gradColor_g 0 (by norm_num)]; decide
    · rw [gradColor_b 0 (by norm_num)]; decide
    · decide
  · ext
    · rw [gradColor_r 49 (by norm_num)]; decide
    · rw [gradColor_g 49 (by norm_num)]; decide
    · rw [gradColor_b 49 (by norm_num)]; decide
    · decide

/-- C7: the leaf silhouette is a single polygon (the only polygon drawn) of
exactly 8 vertices at the source's proportional offsets around (256, 256),
filled fully opaque white, and it is operation number 50 — the first 50
operations are exactly the gradient rectangles, so it is drawn on top of
all of them. -/
theorem C7_leaf_polygon :
    create_carbon_tracker_icon[50]? =
      some (.polygon leaf_points ⟨255, 255, 255, 255⟩) ∧
    leaf_points.length = 8 ∧
    leaf_points = [(256, 77), (363.4, 202.3), (399.2, 291.8), (309.7, 363.4),
      (256, 327.6), (202.3, 363.4), (112.8, 291.8), (148.6, 202.3)] ∧
    create_carbon_tracker_icon.take 50 = gradientOps ∧
    (create_carbon_tracker_icon.take 50).all isRRect = true ∧
    create_carbon_tracker_icon.countP isPolygon = 1 := by
  have htake : create_carbon_tracker_icon.take 50 = gradientOps := by
    rw [create_carbon_tracker_icon]
    exact List.take_left' gradientOps_length
  refine ⟨?_, rfl, ?_, htake, ?_, ?_⟩
  · rw [create_carbon_tracker_icon,
      List.getElem?_append_right (by rw [gradientOps_length]),
      gradientOps_length]
    simp
  · norm_num [leaf_points, center_x_eq, center_y_eq, leaf_size_eq, Prod.ext_iff]
  · rw [htake, List.all_eq_true]
    intro op hop
    rw [gradientOps] at hop
    obtain ⟨i, _, rfl⟩ := List.mem_map.mp hop
    rfl
  · rw [create_carbon_tracker_icon, List.countP_append]
    have h0 : gradientOps.countP isPolygon = 0 := by
      rw [List.countP_eq_zero]
      intro op hop
      rw [gradientOps] at hop
      obtain ⟨i, _, rfl⟩ := List.mem_map.mp hop
      simp [isPolygon]
    rw [h0]
    norm_num [detail_points, List.countP_cons, isPolygon]

/-- C8: the four extreme corner points of the canvas are covered by none of
the drawing operations — the rounded corners of every rectangle stop short
of them and all other shapes lie far inside — so after replaying all
operations over the transparent canvas their alpha is still 0. -/
theorem C8_corners_transparent :
    alphaAt create_carbon_tracker_icon 0 0 = 0 ∧
    alphaAt create_carbon_tracker_icon 0 511 = 0 ∧
    alphaAt create_carbon_tracker_icon 511 0 = 0 ∧
    alphaAt create_carbon_tracker_icon 511 511 = 0 := by
  have key : ∀ x y : ℚ, (x = 0 ∨ x = 511) → (y = 0 ∨ y = 511) →
      alphaAt create_carbon_tracker_icon x y = 0 := by
    intro x y hx hy
    rw [alphaAt]
    apply paint_foldl_skip
    intro op hop
    rw [create_carbon_tracker_icon] at hop
    rcases List.mem_append.mp hop with hgrad | htail
    · rw [gradientOps] at hgrad
      obtain ⟨i, hir, rfl⟩ := List.mem_map.mp hgrad
      by_cases h0 : i = 0
      · subst h0
        rcases hx with rfl | rfl <;> rcases hy with rfl | rfl <;>
          norm_num [opCovers, rrectCovers, offset, corner_radius_eq, size]
      · have h2 : (2 : ℚ) ≤ ((offset i : ℕ) : ℚ) := by
          have h2n : (2 : ℕ) ≤ offset i := by
            simp only [offset]
            omega
          exact_mod_cast h2n
        rcases hx with rfl | rfl
        · have hx0 : ¬ (((offset i : ℕ) : ℚ) ≤ 0) := by linarith
          simp only [opCovers, rrectCovers, decide_eq_false hx0, Bool.false_and,
            Bool.and_false]
        · have hx1 : ¬ ((511 : ℚ) ≤ ((size : ℕ) : ℚ) - ((offset i : ℕ) : ℚ)) := by
            rw [size_cast]
            linarith
          simp only [opCovers, rrectCovers, decide_eq_false hx1, Bool.false_and,
            Bool.and_false]
    · rcases List.mem_cons.mp htail with rfl | htail2
      · rcases hx with rfl | rfl <;>
          norm_num [opCovers, ptsBBoxCovers, leaf_points, center_x_eq,
            center_y_eq, leaf_size_eq]
      · rcases List.mem_cons.mp htail2 with rfl | hell
        · rcases hx with rfl | rfl <;>
            norm_num [opCovers, bboxCovers, vein_p0, vein_p1, center_x_eq,
              center_y_eq, leaf_size_eq]
        · obtain ⟨p, hp, rfl⟩ := List.mem_map.mp hell
          have hp3 : p = (center_x - (leaf_size : ℚ) * (4 / 10),
              center_y - (leaf_size : ℚ) * (1 / 10)) ∨
              p = (center_x + (leaf_size : ℚ) * (4 / 10),
              center_y + (leaf_size : ℚ) * (1 / 10)) ∨
              p = (center_x - (leaf_size : ℚ) * (1 / 10),
              center_y + (leaf_size : ℚ) * (4 / 10)) := by
            simpa [detail_points] using hp
          rcases hp3 with rfl | rfl | rfl <;> rcases hx with rfl | rfl <;>
            norm_num [opCovers, bboxCovers, center_x_eq, center_y_eq, leaf_size_eq]
  exact ⟨key 0 0 (Or.inl rfl) (Or.inl rfl), key 0 511 (Or.inl rfl) (Or.inr rfl),
    key 511 0 (Or.inr rfl) (Or.inl rfl), key 511 511 (Or.inr rfl) (Or.inr rfl)⟩

/-- C9: for every gradient step i < 50 the channels lie in the closed
intervals R ∈ [46, 102], G ∈ [125, 187], B ∈ [50, 106], and each channel is
non-strictly decreasing from one step to the next, so every fill is a valid
8-bit color between the two endpoint colors. -/
theorem C9_channel_invariant :
    (∀ i, i < 50 →
      46 ≤ (gradColor i).r ∧ (gradColor i).r ≤ 102 ∧
      125 ≤ (gradColor i).g ∧ (gradColor i).g ≤ 187 ∧
      50 ≤ (gradColor i).b ∧ (gradColor i).b ≤ 106) ∧
    (∀ i, i < 49 →
      (gradColor (i + 1)).r ≤ (gradColor i).r ∧
      (gradColor (i + 1)).g ≤ (gradColor i).g ∧
      (gradColor (i + 1)).b ≤ (gradColor i).b) := by
  constructor
  · intro i hi
    rw [gradColor_r i (by omega), gradColor_g i (by omega),
      gradColor_b i (by omega)]
    omega
  · intro i hi
    rw [gradColor_r i (by omega), gradColor_g i (by omega),
      gradColor_b i (by omega), gradColor_r (i + 1) (by omega),
      gradColor_g (i + 1) (by omega), gradColor_b (i + 1) (by omega)]
    push_cast
    omega

/-- C9 witness: both parts of the invariant instantiated at step 5. -/
theorem C9_channel_invariant_witness :
    (5 < 50 ∧
      (46 ≤ (gradColor 5).r ∧ (gradColor 5).r ≤ 102 ∧
       125 ≤ (gradColor 5).g ∧ (gradColor 5).g ≤ 187 ∧
       50 ≤ (gradColor 5).b ∧ (gradColor 5).b ≤ 106)) ∧
    (5 < 49 ∧
      ((gradColor (5 + 1)).r ≤ (gradColor 5).r ∧
       (gradColor (5 + 1)).g ≤ (gradColor 5).g ∧
       (gradColor (5 + 1)).b ≤ (gradColor 5).b)) :=
  ⟨⟨by decide, C9_channel_invariant.1 5 (by decide)⟩,
   ⟨by decide, C9_channel_invariant.2 5 (by decide)⟩⟩

/-- C10: no drawn shape leaves the canvas: every gradient rectangle is the
symmetric inset [2i, 2i, 512-2i, 512-2i] with 0 ≤ 2i ≤ 98 < 512-2i, and all
8 leaf vertices, both vein endpoints, and the corners of the three detail
circles' 4px bounding boxes lie strictly inside (0, 512) × (0, 512). -/
theorem C10_no_clipping :
    gradientOps.all rrectBoundsOk = true ∧
    leaf_points.all ptStrictlyInside = true ∧
    ptStrictlyInside vein_p0 = true ∧
    ptStrictlyInside vein_p1 = true ∧
    detail_points.all (fun p =>
      ptStrictlyInside (p.1 - 4, p.2 - 4) &&
      ptStrictlyInside (p.1 + 4, p.2 + 4)) = true := by
  refine ⟨?_, ?_, ?_, ?_, ?_⟩
  · rw [List.all_eq_true]
    intro op hop
    rw [gradientOps] at hop
    obtain ⟨i, hir, rfl⟩ := List.mem_map.mp hop
    have hi : i < 50 := by
      have := List.mem_range.mp hir
      simpa [steps] using this
    have hoff : ((offset i : ℕ) : ℚ) ≤ 98 := by
      have hn : offset i ≤ 98 := by
        simp only [offset]
        omega
      exact_mod_cast hn
    have hoff0 : (0 : ℚ) ≤ ((offset i : ℕ) : ℚ) := by positivity
    have hlt : ((offset i : ℕ) : ℚ) < 512 - ((offset i : ℕ) : ℚ) := by
      linarith
    simp [rrectBoundsOk, size_cast, hoff, hoff0, hlt]
  · norm_num [leaf_points, ptStrictlyInside, center_x_eq, center_y_eq, leaf_size_eq]
  · norm_num [vein_p0, ptStrictlyInside, center_x_eq, center_y_eq, leaf_size_eq]
  · norm_num [vein_p1, ptStrictlyInside, center_x_eq, center_y_eq, leaf_size_eq]
  · norm_num [detail_points, ptStrictlyInside, center_x_eq, center_y_eq, leaf_size_eq]

end CarbonIcon
